import Mathlib

/-!
Verification of the `Dimensions` non-dimensionalization header
(`include/Dimensions/Dimensions.hpp`).

The C++ code is a CRTP class template `Dimensions<Derived_, Real_>`: a
concrete derived class supplies the four base-scale accessors
(`LengthScale`, `DensityScale`, `TimeScale`, `TemperatureScale`) and the
base class derives every other scale and the two dimensionless constants
from them.  We embed the numeric template parameter `Real_` as an arbitrary
field `R` (instantiated at `ℝ` in the theorems) and a fully resolved
instance as the record `BaseScales R` holding the values that the CRTP
calls `Derived().LengthScale()` etc. return; every derived-scale member
function of the base class becomes a function `BaseScales R → R`,
transcribed operation for operation from the header.
-/

/-- The resolved base scales of one `Dimensions` instance: the values
returned by the CRTP calls `Derived().LengthScale()`,
`Derived().DensityScale()`, `Derived().TimeScale()` and
`Derived().TemperatureScale()` on the concrete derived class. -/
structure BaseScales (R : Type) where
  lengthScale : R
  densityScale : R
  timeScale : R
  temperatureScale : R

namespace Dimensions

variable {R : Type} [Field R]

/-- Member `gravitationalConstant_` of `Dimensions` (SI value of G). -/
def gravitationalConstant_ : R := 6.67430e-11

/-- Member `boltzmannConstant_` of `Dimensions` (SI value of kB). -/
def boltzmannConstant_ : R := 1.380649e-23

/-- `Dimensions::MassScale`: `DensityScale() * l_scale * l_scale * l_scale`. -/
def MassScale (b : BaseScales R) : R :=
  b.densityScale * b.lengthScale * b.lengthScale * b.lengthScale

/-- `Dimensions::VelocityScale`: `LengthScale() / TimeScale()`. -/
def VelocityScale (b : BaseScales R) : R :=
  b.lengthScale / b.timeScale

/-- `Dimensions::AccelerationScale`: `VelocityScale() / TimeScale()`. -/
def AccelerationScale (b : BaseScales R) : R :=
  VelocityScale b / b.timeScale

/-- `Dimensions::ForceScale`: `MassScale() * AccelerationScale()`. -/
def ForceScale (b : BaseScales R) : R :=
  MassScale b * AccelerationScale b

/-- `Dimensions::TractionScale`: `ForceScale() / (l_scale * l_scale)`. -/
def TractionScale (b : BaseScales R) : R :=
  ForceScale b / (b.lengthScale * b.lengthScale)

/-- `Dimensions::MomentScale`: `ForceScale() * LengthScale()`. -/
def MomentScale (b : BaseScales R) : R :=
  ForceScale b * b.lengthScale

/-- `Dimensions::PotentialScale`: `AccelerationScale() * LengthScale()`. -/
def PotentialScale (b : BaseScales R) : R :=
  AccelerationScale b * b.lengthScale

/-- `Dimensions::EnergyScale`: `MassScale() * v_scale * v_scale`. -/
def EnergyScale (b : BaseScales R) : R :=
  MassScale b * VelocityScale b * VelocityScale b

/-- `Dimensions::GravitationalConstant`:
`gravitationalConstant_ * DensityScale() * t_scale * t_scale`. -/
def GravitationalConstant (b : BaseScales R) : R :=
  gravitationalConstant_ * b.densityScale * b.timeScale * b.timeScale

/-- `Dimensions::BoltzmannConstant`:
`boltzmannConstant_ * TemperatureScale() / EnergyScale()`. -/
def BoltzmannConstant (b : BaseScales R) : R :=
  boltzmannConstant_ * b.temperatureScale / EnergyScale b

end Dimensions

/-- A concrete provider for `MechanicalDimensions<Derived_, Real_>`: the
derived class supplies length, density and time; temperature comes from the
helper's fixed default. -/
structure MechProvider (R : Type) where
  lengthScale : R
  densityScale : R
  timeScale : R

namespace MechanicalDimensions

variable {R : Type} [Field R]

/-- `MechanicalDimensions::TemperatureScale`: `static_cast<Real_>(1.0)`. -/
def TemperatureScale : R := 1.0

/-- The resolved base scales seen by the `Dimensions` base class when the
concrete derived class sits below `MechanicalDimensions`: CRTP dispatch of
`Derived().TemperatureScale()` lands on the helper's constant. -/
def resolve (p : MechProvider R) : BaseScales R :=
  { lengthScale := p.lengthScale
    densityScale := p.densityScale
    timeScale := p.timeScale
    temperatureScale := TemperatureScale }

end MechanicalDimensions

/-- A concrete provider for `MechanicalMassDimensions<Derived_, Real_>`: the
derived class supplies length, mass and time (as `MyUnitSystem` does in
`tests/test_dimensions.cpp`). -/
structure MassProvider (R : Type) where
  lengthScale : R
  massScale : R
  timeScale : R

namespace MechanicalMassDimensions

variable {R : Type} [Field R]

/-- `MechanicalMassDimensions::DensityScale`:
`MassScale() / (l_scale * l_scale * l_scale)`. -/
def DensityScale (p : MassProvider R) : R :=
  p.massScale / (p.lengthScale * p.lengthScale * p.lengthScale)

/-- The resolved base scales seen by the `Dimensions` base class for a
`MechanicalMassDimensions` system: `Derived().DensityScale()` dispatches to
the helper's computed density, and `Derived().TemperatureScale()` to the
`MechanicalDimensions` constant. -/
def resolve (p : MassProvider R) : BaseScales R :=
  { lengthScale := p.lengthScale
    densityScale := DensityScale p
    timeScale := p.timeScale
    temperatureScale := MechanicalDimensions.TemperatureScale }

end MechanicalMassDimensions

/-- A provider for the plain `Dimensions` base class in which the concrete
derived class may omit accessors.  In the C++ source an omitted accessor is
not an error object: the CRTP call `Derived().X()` then resolves to the
inherited base-class accessor itself, an infinite recursion that never
produces a value (and is ill-formed when evaluated in a constant
expression).  We model the outcome of such a call as `none`.  The
`massScale` field records a `MassScale` accessor the derived class may
define; the plain `Dimensions` base class never consults it (its internal
`MassScale()` is always `DensityScale() * l³`). -/
structure OptProvider (R : Type) where
  lengthScale : Option R
  densityScale : Option R
  massScale : Option R
  timeScale : Option R
  temperatureScale : Option R

namespace DimensionsOpt

variable {R : Type} [Field R]

/-- `Dimensions::LengthScale`, CRTP call `Derived().LengthScale()`. -/
def LengthScale (p : OptProvider R) : Option R := p.lengthScale

/-- `Dimensions::DensityScale`, CRTP call `Derived().DensityScale()`. -/
def DensityScale (p : OptProvider R) : Option R := p.densityScale

/-- `Dimensions::TimeScale`, CRTP call `Derived().TimeScale()`. -/
def TimeScale (p : OptProvider R) : Option R := p.timeScale

/-- `Dimensions::TemperatureScale`, CRTP call `Derived().TemperatureScale()`. -/
def TemperatureScale (p : OptProvider R) : Option R := p.temperatureScale

/-- `Dimensions::MassScale` under possibly missing base accessors. -/
def MassScale (p : OptProvider R) : Option R :=
  (LengthScale p).bind fun l => (DensityScale p).map fun d => d * l * l * l

/-- `Dimensions::VelocityScale` under possibly missing base accessors. -/
def VelocityScale (p : OptProvider R) : Option R :=
  (LengthScale p).bind fun l => (TimeScale p).map fun t => l / t

/-- `Dimensions::AccelerationScale` under possibly missing base accessors. -/
def AccelerationScale (p : OptProvider R) : Option R :=
  (VelocityScale p).bind fun v => (TimeScale p).map fun t => v / t

/-- `Dimensions::ForceScale` under possibly missing base accessors. -/
def ForceScale (p : OptProvider R) : Option R :=
  (MassScale p).bind fun m => (AccelerationScale p).map fun a => m * a

/-- `Dimensions::TractionScale` under possibly missing base accessors. -/
def TractionScale (p : OptProvider R) : Option R :=
  (LengthScale p).bind fun l => (ForceScale p).map fun f => f / (l * l)

/-- `Dimensions::MomentScale` under possibly missing base accessors. -/
def MomentScale (p : OptProvider R) : Option R :=
  (ForceScale p).bind fun f => (LengthScale p).map fun l => f * l

/-- `Dimensions::PotentialScale` under possibly missing base accessors. -/
def PotentialScale (p : OptProvider R) : Option R :=
  (AccelerationScale p).bind fun a => (LengthScale p).map fun l => a * l

/-- `Dimensions::EnergyScale` under possibly missing base accessors. -/
def EnergyScale (p : OptProvider R) : Option R :=
  (VelocityScale p).bind fun v => (MassScale p).map fun m => m * v * v

/-- `Dimensions::GravitationalConstant` under possibly missing base accessors. -/
def GravitationalConstant (p : OptProvider R) : Option R :=
  (TimeScale p).bind fun t => (DensityScale p).map fun d =>
    Dimensions.gravitationalConstant_ * d * t * t

/-- `Dimensions::BoltzmannConstant` under possibly missing base accessors. -/
def BoltzmannConstant (p : OptProvider R) : Option R :=
  (TemperatureScale p).bind fun θ => (EnergyScale p).map fun e =>
    Dimensions.boltzmannConstant_ * θ / e

end DimensionsOpt

/-- Modelled from the spec: the header variants that default an omitted
base scale (the `TimeScaleNotSet` tagged variant that `examples/ex1.cpp`
instantiates, and the variant defaulting temperature) are not present in
this snapshot of the repository; only their caller is.  Spec §4.2 step 3:
an omitted TimeScale defaults to the free-fall collapse time
`1 / sqrt(π × G_physical × DensityScale)` with `G_physical = 6.67430e-11`. -/
noncomputable def defaultTimeScale (densityScale : ℝ) : ℝ :=
  1 / Real.sqrt (Real.pi * 6.67430e-11 * densityScale)

/-- Modelled from the spec: §4.2 step 2 of the resolution order — whichever
of DensityScale and MassScale is absent is derived from the other
(`DensityScale = MassScale / LengthScale³`); if both are absent the system
is unconfigured and resolution fails. -/
noncomputable def resolveDensity (p : OptProvider ℝ) (lengthScale : ℝ) : Option ℝ :=
  match p.densityScale, p.massScale with
  | some d, _ => some d
  | none, some m => some (m / (lengthScale * lengthScale * lengthScale))
  | none, none => none

/-- Modelled from the spec: the full base-scale resolution of §4.2 steps
1–4 for the defaulting header variants missing from the snapshot.
LengthScale is mandatory; density/mass resolve per `resolveDensity`; an
omitted TimeScale defaults to `defaultTimeScale`; an omitted
TemperatureScale defaults to `EnergyScale / kB_physical` with
`kB_physical = 1.380649e-23`, where the energy scale is the source's
`Dimensions::EnergyScale` of the instance being resolved (it reads only
length, density and time, so the temperature field passed to it is
irrelevant; we pass 0). -/
noncomputable def resolveBase (p : OptProvider ℝ) : Option (BaseScales ℝ) :=
  match p.lengthScale with
  | none => none
  | some L =>
    match resolveDensity p L with
    | none => none
    | some d =>
      let T := p.timeScale.getD (defaultTimeScale d)
      some { lengthScale := L, densityScale := d, timeScale := T,
             temperatureScale := p.temperatureScale.getD
               (Dimensions.EnergyScale ⟨L, d, T, 0⟩ / 1.380649e-23) }

/-- Resolution of a provider that supplies length and density directly:
time and temperature default when absent. -/
theorem resolveBase_supplied (L d : ℝ) (mOpt tOpt θOpt : Option ℝ) :
    resolveBase ⟨some L, some d, mOpt, tOpt, θOpt⟩
      = some { lengthScale := L, densityScale := d,
               timeScale := tOpt.getD (defaultTimeScale d),
               temperatureScale := θOpt.getD
                 (Dimensions.EnergyScale
                   ⟨L, d, tOpt.getD (defaultTimeScale d), 0⟩ / 1.380649e-23) } :=
  rfl

/-- Resolution of a provider that supplies length and mass (density
derived): time and temperature default when absent. -/
theorem resolveBase_massSupplied (L m : ℝ) (tOpt θOpt : Option ℝ) :
    resolveBase ⟨some L, none, some m, tOpt, θOpt⟩
      = some { lengthScale := L, densityScale := m / (L * L * L),
               timeScale := tOpt.getD (defaultTimeScale (m / (L * L * L))),
               temperatureScale := θOpt.getD
                 (Dimensions.EnergyScale
                   ⟨L, m / (L * L * L),
                    tOpt.getD (defaultTimeScale (m / (L * L * L))), 0⟩
                   / 1.380649e-23) } :=
  rfl

/-- C1: for every provider that supplies LengthScale and DensityScale but
omits TimeScale, the resolved TimeScale equals the free-fall collapse time
`1 / sqrt(π × 6.67430e-11 × DensityScale)`; in particular with
LengthScale = 6.371e6 and DensityScale = 5.514e3 it equals
`1 / sqrt(π × 6.67430e-11 × 5.514e3)`. -/
theorem timeScale_default_freeFall :
    (∀ (L d : ℝ) (mOpt θOpt : Option ℝ),
      (resolveBase ⟨some L, some d, mOpt, none, θOpt⟩).map (fun b => b.timeScale)
        = some (1 / Real.sqrt (Real.pi * 6.67430e-11 * d))) ∧
    (resolveBase ⟨some 6.371e6, some 5.514e3, none, none, none⟩).map
        (fun b => b.timeScale)
      = some (1 / Real.sqrt (Real.pi * 6.67430e-11 * 5.514e3)) :=
  ⟨fun _ _ _ _ => rfl, rfl⟩

/-- C4: for every provider that omits TemperatureScale (and does not use
the mechanical-only variant), the resolved TemperatureScale equals
`EnergyScale / 1.380649e-23`, where EnergyScale is the derived energy
scale of the same instance. -/
theorem temperatureScale_default_boltzmann (p : OptProvider ℝ)
    (b : BaseScales ℝ) (hres : resolveBase p = some b)
    (hθ : p.temperatureScale = none) :
    b.temperatureScale = Dimensions.EnergyScale b / 1.380649e-23 := by
  obtain ⟨lO, dO, mO, tO, θO⟩ := p
  change θO = none at hθ
  subst hθ
  cases lO with
  | none => exact Option.noConfusion hres
  | some L =>
    cases dO with
    | some d =>
      rw [resolveBase_supplied] at hres
      injection hres with h
      subst h
      rfl
    | none =>
      cases mO with
      | none => exact Option.noConfusion hres
      | some m =>
        rw [resolveBase_massSupplied] at hres
        injection hres with h
        subst h
        rfl

/-- C4 witness: a concrete provider (length 1, density 1, time 1,
temperature omitted) resolves, and its resolved temperature is its own
derived energy scale divided by the Boltzmann constant. -/
theorem temperatureScale_default_boltzmann_witness :
    resolveBase ⟨some 1, some 1, none, some 1, none⟩
      = some ⟨1, 1, 1,
          Dimensions.EnergyScale (⟨1, 1, 1, 0⟩ : BaseScales ℝ) / 1.380649e-23⟩ ∧
    (⟨1, 1, 1, Dimensions.EnergyScale (⟨1, 1, 1, 0⟩ : BaseScales ℝ)
        / 1.380649e-23⟩ : BaseScales ℝ).temperatureScale
      = Dimensions.EnergyScale
          (⟨1, 1, 1, Dimensions.EnergyScale (⟨1, 1, 1, 0⟩ : BaseScales ℝ)
            / 1.380649e-23⟩ : BaseScales ℝ) / 1.380649e-23 :=
  ⟨rfl,
   temperatureScale_default_boltzmann ⟨some 1, some 1, none, some 1, none⟩
     _ rfl rfl⟩

/-- C5: whichever of DensityScale and MassScale the provider omits is
derived from the other: the mass-first helper computes
`DensityScale = MassScale / LengthScale³` and the base class computes
`MassScale = DensityScale × LengthScale³`; with LengthScale = 2 and
provider MassScale = 3 the derived DensityScale is 0.375. -/
theorem densityScale_massScale_mutual :
    (∀ p : MassProvider ℝ,
      (MechanicalMassDimensions.resolve p).densityScale
        = p.massScale / (p.lengthScale * p.lengthScale * p.lengthScale)) ∧
    (∀ b : BaseScales ℝ,
      Dimensions.MassScale b
        = b.densityScale * b.lengthScale * b.lengthScale * b.lengthScale) ∧
    (MechanicalMassDimensions.resolve (⟨2, 3, 4⟩ : MassProvider ℝ)).densityScale
      = 0.375 := by
  refine ⟨fun p => rfl, fun b => rfl, ?_⟩
  show (3 : ℝ) / (2 * 2 * 2) = 0.375
  norm_num

/-- C6: the dimensionless GravitationalConstant equals
`6.67430e-11 × DensityScale × TimeScale²`; with resolved
DensityScale = 0.375 and TimeScale = 4 it equals
`6.67430e-11 × 0.375 × 16`. -/
theorem gravitationalConstant_formula :
    (∀ b : BaseScales ℝ,
      Dimensions.GravitationalConstant b
        = 6.67430e-11 * b.densityScale * (b.timeScale * b.timeScale)) ∧
    Dimensions.GravitationalConstant
        (MechanicalMassDimensions.resolve (⟨2, 3, 4⟩ : MassProvider ℝ))
      = 6.67430e-11 * 0.375 * 16 := by
  constructor
  · intro b
    show (6.67430e-11 : ℝ) * b.densityScale * b.timeScale * b.timeScale = _
    ring
  · show (6.67430e-11 : ℝ) * (3 / (2 * 2 * 2)) * 4 * 4 = 6.67430e-11 * 0.375 * 16
    norm_num

/-- C7: the dimensionless BoltzmannConstant equals
`1.380649e-23 × TemperatureScale / EnergyScale` of the same instance. -/
theorem boltzmannConstant_formula :
    (∀ b : BaseScales ℝ,
      Dimensions.BoltzmannConstant b
        = 1.380649e-23 * b.temperatureScale / Dimensions.EnergyScale b) ∧
    Dimensions.BoltzmannConstant (⟨1, 1, 1, 2⟩ : BaseScales ℝ)
      = 1.380649e-23 * 2 := by
  constructor
  · intro b
    rfl
  · show (1.380649e-23 : ℝ) * 2 / (1 * 1 * 1 * 1 * (1 / 1) * (1 / 1))
        = 1.380649e-23 * 2
    norm_num

/-- C8: under the mechanical-only variant the resolved TemperatureScale is
exactly 1.0, regardless of the values of all other base scales (and
likewise under the mass-first variant, which inherits the same default). -/
theorem temperatureScale_mechanical_one :
    (∀ p : MechProvider ℝ,
      (MechanicalDimensions.resolve p).temperatureScale = 1.0) ∧
    (∀ q : MassProvider ℝ,
      (MechanicalMassDimensions.resolve q).temperatureScale = 1.0) :=
  ⟨fun _ => rfl, fun _ => rfl⟩

/-- C9: for every valid instance (all resolved base scales strictly
positive), `EnergyScale = ForceScale × LengthScale`: the work-energy
identity between `MassScale × VelocityScale²` and
`(MassScale × AccelerationScale) × LengthScale`. -/
theorem energyScale_eq_forceScale_mul_lengthScale (b : BaseScales ℝ)
    (hL : 0 < b.lengthScale) (hd : 0 < b.densityScale)
    (hT : 0 < b.timeScale) :
    Dimensions.EnergyScale b = Dimensions.ForceScale b * b.lengthScale := by
  unfold Dimensions.EnergyScale Dimensions.ForceScale Dimensions.MassScale
    Dimensions.AccelerationScale Dimensions.VelocityScale
  ring

/-- C9 witness: the work-energy identity at the concrete valid instance
with length 2, density 0.375, time 4, temperature 1. -/
theorem energyScale_eq_forceScale_mul_lengthScale_witness :
    Dimensions.EnergyScale (⟨2, 0.375, 4, 1⟩ : BaseScales ℝ)
      = Dimensions.ForceScale (⟨2, 0.375, 4, 1⟩ : BaseScales ℝ) * 2 :=
  energyScale_eq_forceScale_mul_lengthScale ⟨2, 0.375, 4, 1⟩
    (by norm_num) (by norm_num) (by norm_num)

/-- C10: under the mass-first variant with strictly positive base scales,
the base class computes mass internally by the round-trip
`(MassScale / LengthScale³) × LengthScale³`; in exact arithmetic this
equals the provider's MassScale, so `ForceScale = MassScale ×
AccelerationScale` and `EnergyScale = MassScale × VelocityScale²`. -/
theorem massFirst_internal_roundTrip (p : MassProvider ℝ)
    (hL : 0 < p.lengthScale) (hM : 0 < p.massScale) (hT : 0 < p.timeScale) :
    Dimensions.MassScale (MechanicalMassDimensions.resolve p)
        = p.massScale / (p.lengthScale * p.lengthScale * p.lengthScale)
          * p.lengthScale * p.lengthScale * p.lengthScale ∧
    Dimensions.MassScale (MechanicalMassDimensions.resolve p) = p.massScale ∧
    Dimensions.ForceScale (MechanicalMassDimensions.resolve p)
        = p.massScale
          * Dimensions.AccelerationScale (MechanicalMassDimensions.resolve p) ∧
    Dimensions.EnergyScale (MechanicalMassDimensions.resolve p)
        = p.massScale
          * Dimensions.VelocityScale (MechanicalMassDimensions.resolve p)
          * Dimensions.VelocityScale (MechanicalMassDimensions.resolve p) := by
  have hL0 : p.lengthScale ≠ 0 := ne_of_gt hL
  have hmass :
      Dimensions.MassScale (MechanicalMassDimensions.resolve p) = p.massScale := by
    show p.massScale / (p.lengthScale * p.lengthScale * p.lengthScale)
        * p.lengthScale * p.lengthScale * p.lengthScale = p.massScale
    field_simp
    ring
  refine ⟨rfl, hmass, ?_, ?_⟩
  · show Dimensions.MassScale (MechanicalMassDimensions.resolve p)
        * Dimensions.AccelerationScale (MechanicalMassDimensions.resolve p) = _
    rw [hmass]
  · show Dimensions.MassScale (MechanicalMassDimensions.resolve p)
        * Dimensions.VelocityScale (MechanicalMassDimensions.resolve p)
        * Dimensions.VelocityScale (MechanicalMassDimensions.resolve p) = _
    rw [hmass]

/-- C10 witness: at the test system with length 2, mass 3, time 4 the
derived ForceScale is 0.375 and the derived EnergyScale is 0.75. -/
theorem massFirst_internal_roundTrip_witness :
    Dimensions.ForceScale
        (MechanicalMassDimensions.resolve (⟨2, 3, 4⟩ : MassProvider ℝ))
      = 0.375 ∧
    Dimensions.EnergyScale
        (MechanicalMassDimensions.resolve (⟨2, 3, 4⟩ : MassProvider ℝ))
      = 0.75 := by
  obtain ⟨-, -, hF, hE⟩ :=
    massFirst_internal_roundTrip (⟨2, 3, 4⟩ : MassProvider ℝ)
      (by norm_num) (by norm_num) (by norm_num)
  constructor
  · rw [hF]
    show (3 : ℝ) * (2 / 4 / 4) = 0.375
    norm_num
  · rw [hE]
    show (3 : ℝ) * (2 / 4) * (2 / 4) = 0.75
    norm_num

/-- C2 counterexample: a provider omitting both DensityScale and MassScale
(length 2, time 4, temperature 1) does not fail with a named
`MissingBaseScale` error — no such error exists anywhere in the code, and
the (stateless) instance is partially usable: the derived VelocityScale is
still readable and returns `2 / 4`, while only the queries that need the
missing base produce no value. -/
theorem missingBaseScale_counterexample :
    DimensionsOpt.VelocityScale
        (⟨some 2, none, none, some 4, some 1⟩ : OptProvider ℝ) = some (2 / 4) ∧
    DimensionsOpt.MassScale
        (⟨some 2, none, none, some 4, some 1⟩ : OptProvider ℝ) = none :=
  ⟨rfl, rfl⟩

/-- C2 amended: a provider omitting LengthScale, or omitting DensityScale,
still constructs (the instance is stateless); every derived-scale query
that needs the missing accessor produces no value (the CRTP call recurses
into itself and is modelled as `none`), but no `MissingBaseScale` error is
raised and queries not involving the missing base remain usable. -/
theorem missingBaseScale_amended (p : OptProvider ℝ) :
    (p.lengthScale = none →
      DimensionsOpt.MassScale p = none ∧
      DimensionsOpt.VelocityScale p = none ∧
      DimensionsOpt.AccelerationScale p = none ∧
      DimensionsOpt.ForceScale p = none ∧
      DimensionsOpt.TractionScale p = none ∧
      DimensionsOpt.MomentScale p = none ∧
      DimensionsOpt.PotentialScale p = none ∧
      DimensionsOpt.EnergyScale p = none) ∧
    (p.densityScale = none →
      DimensionsOpt.MassScale p = none ∧
      DimensionsOpt.ForceScale p = none ∧
      DimensionsOpt.EnergyScale p = none ∧
      DimensionsOpt.GravitationalConstant p = none ∧
      DimensionsOpt.BoltzmannConstant p = none) := by
  obtain ⟨lO, dO, mO, tO, θO⟩ := p
  constructor
  · intro h
    change lO = none at h
    subst h
    exact ⟨rfl, rfl, rfl, rfl, rfl, rfl, rfl, rfl⟩
  · intro h
    change dO = none at h
    subst h
    cases lO <;> cases tO <;> cases θO <;> exact ⟨rfl, rfl, rfl, rfl, rfl⟩

/-- C2 amended witness: with LengthScale omitted the derived MassScale
yields no value, and with both DensityScale and MassScale omitted the
derived EnergyScale yields no value. -/
theorem missingBaseScale_amended_witness :
    DimensionsOpt.MassScale
        (⟨none, some 2, none, some 3, some 1⟩ : OptProvider ℝ) = none ∧
    DimensionsOpt.EnergyScale
        (⟨some 2, none, none, some 4, some 1⟩ : OptProvider ℝ) = none :=
  ⟨((missingBaseScale_amended ⟨none, some 2, none, some 3, some 1⟩).1 rfl).1,
   ((missingBaseScale_amended ⟨some 2, none, none, some 4, some 1⟩).2 rfl).2.2.1⟩

/-- C3 counterexample: with DensityScale = 0 (length 1, time 1,
temperature 1) the derived-scale queries do not fail with an
`InvalidScaleValue` error — no such error exists anywhere in the code —
they return plain computed values: GravitationalConstant and EnergyScale
both return 0, and with DensityScale = -1 GravitationalConstant returns
the negative value `-6.67430e-11` instead of failing. -/
theorem invalidScaleValue_counterexample :
    Dimensions.GravitationalConstant (⟨1, 0, 1, 1⟩ : BaseScales ℝ) = 0 ∧
    Dimensions.EnergyScale (⟨1, 0, 1, 1⟩ : BaseScales ℝ) = 0 ∧
    Dimensions.GravitationalConstant (⟨1, -1, 1, 1⟩ : BaseScales ℝ)
      = -6.67430e-11 := by
  refine ⟨?_, ?_, ?_⟩
  · show (6.67430e-11 : ℝ) * 0 * 1 * 1 = 0
    norm_num
  · show (0 : ℝ) * 1 * 1 * 1 * (1 / 1) * (1 / 1) = 0
    norm_num
  · show (6.67430e-11 : ℝ) * (-1) * 1 * 1 = -6.67430e-11
    norm_num

/-- C3 amended: the code performs no validation of scale values — a zero
(or negative) DensityScale is propagated through the same total
arithmetic, so MassScale, ForceScale, EnergyScale and
GravitationalConstant all evaluate to 0 (no `InvalidScaleValue` error is
raised; BoltzmannConstant then divides by the zero EnergyScale, which in
IEEE double arithmetic yields a non-finite value). -/
theorem invalidScaleValue_amended (b : BaseScales ℝ)
    (h : b.densityScale = 0) :
    Dimensions.MassScale b = 0 ∧
    Dimensions.ForceScale b = 0 ∧
    Dimensions.EnergyScale b = 0 ∧
    Dimensions.GravitationalConstant b = 0 := by
  unfold Dimensions.GravitationalConstant Dimensions.EnergyScale
    Dimensions.ForceScale Dimensions.MassScale Dimensions.AccelerationScale
    Dimensions.VelocityScale
  rw [h]
  exact ⟨by ring, by ring, by ring, by ring⟩

/-- C3 amended witness: the unvalidated zero-density instance with length
1, time 1, temperature 1. -/
theorem invalidScaleValue_amended_witness :
    Dimensions.MassScale (⟨1, 0, 1, 1⟩ : BaseScales ℝ) = 0 ∧
    Dimensions.ForceScale (⟨1, 0, 1, 1⟩ : BaseScales ℝ) = 0 ∧
    Dimensions.EnergyScale (⟨1, 0, 1, 1⟩ : BaseScales ℝ) = 0 ∧
    Dimensions.GravitationalConstant (⟨1, 0, 1, 1⟩ : BaseScales ℝ) = 0 :=
  invalidScaleValue_amended ⟨1, 0, 1, 1⟩ rfl
